import Mathlib

/-!
Verification development for the competitive-scrape repository.

The model is a shallow embedding of the snapshot/change-detection pipeline:

* `Scraping.cleanHtmlToText`, `Scraping.parsePriceFromString`,
  `Scraping.extractPricingFromHtml`, `Scraping.scrapePage`
  embed `src/lib/scraping.ts`;
* `ScrapeRoute.extractPricingFromText` and `ScrapeRoute.runScrapePost`
  embed the POST handler of
  `src/app/api/monitored-pages/[pageId]/scrape/route.ts`;
* `ReportsRoute.resolveWindow`, `ReportsRoute.generateAiReport` and
  `ReportsRoute.createReportPost` embed the POST handler of
  `src/app/api/projects/[projectId]/reports/route.ts`.

Strings are modelled as `List Char` (JavaScript strings; all inputs used in
this development are within the basic multilingual plane, so code units and
characters coincide).  JavaScript numbers are modelled as exact rationals;
the `Number.isFinite` guard is modelled by comparison with the exact double
overflow threshold `2^1024 - 2^970` (a decimal string converts to the IEEE
double Infinity exactly when its value reaches that threshold).  Each
JavaScript regular expression used by the source is hand-compiled to a
deterministic scanning function; comments at each definition record the
regex it implements and why the deterministic scan agrees with the
backtracking search on the inputs considered.
-/

namespace JsStr

/-- ASCII uppercasing of one character, the effect of JavaScript
`toUpperCase` on the alphabet used by the source regexes (ASCII letters,
digits, punctuation and the euro sign, which uppercases to itself). -/
def asciiUpper (c : Char) : Char :=
  if 'a' ≤ c ∧ c ≤ 'z' then Char.ofNat (c.toNat - 32) else c

/-- Uppercase a whole string (JavaScript `toUpperCase` on our alphabet). -/
def upperStr (s : List Char) : List Char := s.map asciiUpper

/-- Case-insensitive character comparison, the canonicalisation used by a
regex `i` flag on our alphabet. -/
def charEqCI (a b : Char) : Bool := asciiUpper a == asciiUpper b

/-- Digit character test (regex `\d`, ASCII digits). -/
def isDigitChar (c : Char) : Bool := '0' ≤ c ∧ c ≤ '9'

/-- Whitespace test (regex `\s` and `String.prototype.trim`, restricted to
the ASCII whitespace characters, the only whitespace in our inputs). -/
def isJsSpace (c : Char) : Bool :=
  c == ' ' || c == '\t' || c == '\n' || c == '\r' || c == '\x0b' || c == '\x0c'

/-- `stripPrefixCI lit cs` matches the literal `lit` case-insensitively at
the start of `cs`; on success it returns the matched input characters
(the capture, as the regex engine would record it) and the rest. -/
def stripPrefixCI : List Char → List Char → Option (List Char × List Char)
  | [], cs => some ([], cs)
  | _ :: _, [] => none
  | l :: ls, c :: cs =>
    if charEqCI c l then
      match stripPrefixCI ls cs with
      | some (tok, rest) => some (c :: tok, rest)
      | none => none
    else none

/-- Split at the first case-insensitive occurrence of `lit`: returns the
text before the occurrence and the text after it (lazy `[\s\S]*?lit`). -/
def splitAtFirstCI (lit : List Char) : List Char → Option (List Char × List Char)
  | [] =>
    match stripPrefixCI lit [] with
    | some (_, rest) => some ([], rest)
    | none => none
  | c :: cs =>
    match stripPrefixCI lit (c :: cs) with
    | some (_, rest) => some ([], rest)
    | none =>
      match splitAtFirstCI lit cs with
      | some (before, after) => some (c :: before, after)
      | none => none

/-- JavaScript `String.prototype.trim` (over our whitespace set). -/
def jsTrim (s : List Char) : List Char :=
  ((s.dropWhile isJsSpace).reverse.dropWhile isJsSpace).reverse

/-- `text.split(/\r?\n/)`: a separator is `\r\n` or a bare `\n`; a bare
`\r` is ordinary content. -/
def splitLinesAux : List Char → List Char → List (List Char)
  | [], acc => [acc.reverse]
  | '\r' :: '\n' :: rest, acc => acc.reverse :: splitLinesAux rest []
  | '\n' :: rest, acc => acc.reverse :: splitLinesAux rest []
  | c :: rest, acc => splitLinesAux rest (c :: acc)

def splitLines (s : List Char) : List (List Char) := splitLinesAux s []

/-- Decimal digit character for a value below 10. -/
def digitChar (d : Nat) : Char := Char.ofNat (48 + d)

def natToCharsAux : Nat → Nat → List Char → List Char
  | 0, _, acc => acc
  | fuel + 1, n, acc =>
    if n < 10 then digitChar n :: acc
    else natToCharsAux fuel (n / 10) (digitChar (n % 10) :: acc)

/-- Decimal rendering of a natural number. -/
def natToChars (n : Nat) : List Char := natToCharsAux (n + 1) n []

/-- Value of a list of decimal digit characters. -/
def digitsVal (ds : List Char) : Nat :=
  ds.foldl (fun acc c => acc * 10 + (c.toNat - 48)) 0

/-- The exact IEEE-754 double overflow threshold `2^1024 - 2^970`, written
as an integer literal: a (positive) decimal value converts to Infinity
exactly when it reaches this bound. -/
def doubleOverflow : ℚ := mkRat 179769313486231580793728971405303415079934132710037826936173778980444968292764750946649017977587207096330286416692887910946555547851940402630657488671505820681908902000708383676273854845817711531764475730270069855571366959622842914819860834936475292719074168444365510704342711559699508093042880177904174497792 1

/-- Model of `Number.isFinite` for values produced by parsing nonnegative
decimal strings (never NaN; Infinity iff the threshold is reached). -/
def isFiniteNumber (q : ℚ) : Bool := q < doubleOverflow

/-- Model of JavaScript `Number(s)` for strings over digits, `.` and `,`
(the only alphabet reaching it in the source): the empty string converts
to 0; otherwise the string must be `digits [. digits]` with at least one
digit, anything else (in particular any remaining comma) is NaN, modelled
as `none`.  A finite value is returned as an exact rational; values at or
beyond the double overflow threshold give Infinity, also `none` here since
the source always guards the conversion with `Number.isFinite`. -/
def jsNumber (s : List Char) : Option ℚ :=
  if s = [] then some (mkRat 0 1)
  else
    let intDigits := s.takeWhile isDigitChar
    let rest := s.drop intDigits.length
    let core : Option ℚ :=
      match rest with
      | [] => if intDigits = [] then none else some (mkRat (digitsVal intDigits) 1)
      | '.' :: rest' =>
        let fracDigits := rest'.takeWhile isDigitChar
        if rest'.drop fracDigits.length ≠ [] then none
        else if intDigits = [] ∧ fracDigits = [] then none
        else some (mkRat
          (digitsVal intDigits * 10 ^ fracDigits.length + digitsVal fracDigits)
          (10 ^ fracDigits.length))
      | _ => none
    match core with
    | none => none
    | some q => if isFiniteNumber q then some q else none

/-- `s.replace(',', '.')` — JavaScript `replace` with a string pattern
replaces only the first occurrence. -/
def replaceFirstComma : List Char → List Char
  | [] => []
  | c :: rest => if c = ',' then '.' :: rest else c :: replaceFirstComma rest

end JsStr

namespace ScrapeRoute

open JsStr

/-- Pricing item produced by the loose pass of
`src/app/api/monitored-pages/[pageId]/scrape/route.ts` (TypeScript type
`PricingItem` there: `label`, `amount` and `currency` are nullable). -/
structure PricingItem where
  label : Option (List Char)
  amount : Option ℚ
  currency : Option (List Char)
  rawLine : List Char
deriving DecidableEq, Repr

/-- Result of the price regex
`/(?:(\d+[.,]?\d*)\s*(€|eur|euro|\$|usd)|(\$)\s*(\d+[.,]?\d*))/i`:
either the number-first alternative (groups 1 and 2) or the
dollar-first alternative (groups 3 and 4; group 3 is always `$`). -/
inductive PriceMatch where
  | numFirst (amountStr : List Char) (curTok : List Char)
  | dollarFirst (amountStr : List Char)
deriving DecidableEq, Repr

/-- The ordered currency alternation `(€|eur|euro|\$|usd)` with the `i`
flag: alternatives are tried left to right; the capture is the matched
input text.  (`euro` is unreachable: any input starting with `euro` is
already matched by `eur`, and nothing follows the group in the pattern.) -/
def matchCurrencyTok (cs : List Char) : Option (List Char × List Char) :=
  match stripPrefixCI ['€'] cs with
  | some r => some r
  | none =>
  match stripPrefixCI ['e', 'u', 'r'] cs with
  | some r => some r
  | none =>
  match stripPrefixCI ['e', 'u', 'r', 'o'] cs with
  | some r => some r
  | none =>
  match stripPrefixCI ['$'] cs with
  | some r => some r
  | none => stripPrefixCI ['u', 's', 'd'] cs

/-- Number-first alternative `(\d+[.,]?\d*)\s*(€|eur|euro|\$|usd)` at a
fixed position, compiled to a deterministic greedy scan.  Greediness is
faithful here: after the number part the pattern needs `\s*` and then a
currency token starting with `€`, `e`, `$` or `u`, none of which is a
digit, a separator or whitespace, so giving back characters from `\d+`,
`[.,]?` or `\d*` can never turn a failure into a success, and the greedy
parse is the unique backtracking result. -/
def matchNumFirstAt (cs : List Char) : Option PriceMatch :=
  let d1 := cs.takeWhile isDigitChar
  if d1 = [] then none
  else
    let rest1 := cs.drop d1.length
    let (sep, rest2) :=
      match rest1 with
      | '.' :: r => (['.'], r)
      | ',' :: r => ([','], r)
      | r => ([], r)
    let d2 := rest2.takeWhile isDigitChar
    let rest3 := rest2.drop d2.length
    let rest4 := rest3.dropWhile isJsSpace
    match matchCurrencyTok rest4 with
    | some (tok, _) => some (.numFirst (d1 ++ sep ++ d2) tok)
    | none => none

/-- Dollar-first alternative `(\$)\s*(\d+[.,]?\d*)` at a fixed position
(greedy, nothing follows the number so the maximal parse is the match). -/
def matchDollarFirstAt (cs : List Char) : Option PriceMatch :=
  match cs with
  | '$' :: rest =>
    let rest1 := rest.dropWhile isJsSpace
    let d1 := rest1.takeWhile isDigitChar
    if d1 = [] then none
    else
      let rest2 := rest1.drop d1.length
      let (sep, rest3) :=
        match rest2 with
        | '.' :: r => (['.'], r)
        | ',' :: r => ([','], r)
        | r => ([], r)
      let d2 := rest3.takeWhile isDigitChar
      some (.dollarFirst (d1 ++ sep ++ d2))
  | _ => none

/-- One attempt of the full price regex at a fixed position: the two
alternatives are tried in pattern order. -/
def matchPriceAt (cs : List Char) : Option PriceMatch :=
  match matchNumFirstAt cs with
  | some m => some m
  | none => matchDollarFirstAt cs

/-- `line.match(priceRegex)`: leftmost match — the regex is attempted at
each position from the left, the first success wins. -/
def findPriceMatch : List Char → Option PriceMatch
  | [] => none
  | c :: rest =>
    match matchPriceAt (c :: rest) with
    | some m => some m
    | none => findPriceMatch rest

/-- The body of the extraction loop for one line: regex match, group
dispatch, currency normalisation, `Number` conversion with the
`Number.isFinite` guard, and item construction (`label` is
`line.slice(0, 120)`). -/
def processLine (line : List Char) : Option PricingItem :=
  match findPriceMatch line with
  | none => none
  | some m =>
    let (amountStr?, currency) :=
      match m with
      | .numFirst a tok =>
        let cur := upperStr tok
        let currency : List Char :=
          if cur = ['€'] ∨ cur = ['E', 'U', 'R', 'O'] ∨ cur = ['E', 'U', 'R'] then
            ['E', 'U', 'R']
          else if cur = ['$'] ∨ cur = ['U', 'S', 'D'] then
            ['U', 'S', 'D']
          else cur
        (some a, currency)
      | .dollarFirst a => (some a, ['U', 'S', 'D'])
    match amountStr? with
    | none => none
    | some amountStr =>
      let normalized := replaceFirstComma amountStr
      match jsNumber normalized with
      | none => none
      | some amount =>
        some { label := some (line.take 120)
               amount := some amount
               currency := some currency
               rawLine := line }

/-- The `for (const line of lines)` loop with its `MAX_ITEMS = 50` break
at the top of the body and its silent `continue` on non-matching lines. -/
def collectItems : List (List Char) → List PricingItem → List PricingItem
  | [], items => items
  | line :: rest, items =>
    if 50 ≤ items.length then items
    else
      match processLine line with
      | none => collectItems rest items
      | some item => collectItems rest (items ++ [item])

/-- The non-empty trimmed lines of a text, as computed by
`text.split(/\r?\n/).map(trim).filter(length > 0)`. -/
def processedLines (t : List Char) : List (List Char) :=
  ((splitLines t).map jsTrim).filter (fun l => l ≠ [])

/-- `extractPricingFromText` of the scrape route.  The argument models
`string | null | undefined`; the guard `if (!text) return []` also fires
on the empty string (falsy in JavaScript). -/
def extractPricingFromText (text : Option (List Char)) : List PricingItem :=
  match text with
  | none => []
  | some t => if t = [] then [] else collectItems (processedLines t) []

end ScrapeRoute

namespace Scraping

open JsStr

/-- Structured pricing item of `src/lib/scraping.ts` (`PricingItem` there:
`sku`, `name`, `price`, `currency` mandatory, `availability` optional). -/
structure PricingItem where
  sku : List Char
  name : List Char
  price : ℚ
  currency : List Char
  availability : Option (List Char)
deriving DecidableEq, Repr

/-- Global replace of `/OPEN[\s\S]*?CLOSE/gi` by a single space, used for
the `<script>...</script>` and `<style>...</style>` removals.  The scan
tries the pattern at each position from the left; a match is replaced and
scanning resumes after it; an opener without a closer is not a match (the
lazy part runs out) and the character is kept.  The fuel argument bounds
the recursion; every step consumes at least one input character, so
`length + 1` fuel is always enough. -/
def replaceBlocksAux (openLit closeLit : List Char) : Nat → List Char → List Char
  | 0, cs => cs
  | _ + 1, [] => []
  | fuel + 1, c :: rest =>
    match stripPrefixCI openLit (c :: rest) with
    | some (_, afterOpen) =>
      match splitAtFirstCI closeLit afterOpen with
      | some (_, afterClose) => ' ' :: replaceBlocksAux openLit closeLit fuel afterClose
      | none => c :: replaceBlocksAux openLit closeLit fuel rest
    | none => c :: replaceBlocksAux openLit closeLit fuel rest

def replaceBlocks (openLit closeLit cs : List Char) : List Char :=
  replaceBlocksAux openLit closeLit (cs.length + 1) cs

/-- The alternation of
`<\/(p|div|h[1-6]|li|section|article|header|footer|tr|br)>`, in pattern
order (`h[1-6]` expanded); each alternative must be followed by `>`. -/
def blockCloseTags : List (List Char) :=
  ["p", "div", "h1", "h2", "h3", "h4", "h5", "h6", "li", "section",
   "article", "header", "footer", "tr", "br"].map String.data

/-- Try the tag alternatives in order after a `</`; on the first tag that
matches and is followed by `>`, return the rest of the input. -/
def tryCloseTag : List (List Char) → List Char → Option (List Char)
  | [], _ => none
  | t :: ts, cs =>
    match stripPrefixCI t cs with
    | some (_, rest) =>
      match rest with
      | '>' :: r => some r
      | _ => tryCloseTag ts cs
    | none => tryCloseTag ts cs

/-- Global replace of the block-closing-tag regex by a newline. -/
def replaceCloseTagsAux : Nat → List Char → List Char
  | 0, cs => cs
  | _ + 1, [] => []
  | fuel + 1, c :: rest =>
    if c = '<' then
      match rest with
      | '/' :: rest2 =>
        match tryCloseTag blockCloseTags rest2 with
        | some r => '\n' :: replaceCloseTagsAux fuel r
        | none => c :: replaceCloseTagsAux fuel rest
      | _ => c :: replaceCloseTagsAux fuel rest
    else c :: replaceCloseTagsAux fuel rest

def replaceCloseTags (cs : List Char) : List Char :=
  replaceCloseTagsAux (cs.length + 1) cs

/-- Global replace of `/<[^>]+>/g` by a space: a `<` followed by at least
one non-`>` character and then `>`; without a closing `>` the character
is kept. -/
def stripTagsAux : Nat → List Char → List Char
  | 0, cs => cs
  | _ + 1, [] => []
  | fuel + 1, c :: rest =>
    if c = '<' then
      let run := rest.takeWhile (fun d => d ≠ '>')
      if run = [] then c :: stripTagsAux fuel rest
      else
        match rest.drop run.length with
        | '>' :: r => ' ' :: stripTagsAux fuel r
        | _ => c :: stripTagsAux fuel rest
    else c :: stripTagsAux fuel rest

def stripTags (cs : List Char) : List Char := stripTagsAux (cs.length + 1) cs

/-- Global replace of `/\n{3,}/g` by exactly two newlines (maximal runs
of three or more; shorter runs are kept as they are). -/
def collapseNewlinesAux : Nat → List Char → List Char
  | 0, cs => cs
  | _ + 1, [] => []
  | fuel + 1, c :: rest =>
    if c = '\n' then
      let run := rest.takeWhile (fun d => d = '\n')
      if 3 ≤ run.length + 1 then
        '\n' :: '\n' :: collapseNewlinesAux fuel (rest.drop run.length)
      else
        c :: (run ++ collapseNewlinesAux fuel (rest.drop run.length))
    else c :: collapseNewlinesAux fuel rest

def collapseNewlines (cs : List Char) : List Char :=
  collapseNewlinesAux (cs.length + 1) cs

/-- Global replace of `/[ \t]+/g` by a single space (maximal runs). -/
def collapseSpacesAux : Nat → List Char → List Char
  | 0, cs => cs
  | _ + 1, [] => []
  | fuel + 1, c :: rest =>
    if c = ' ' ∨ c = '\t' then
      ' ' :: collapseSpacesAux fuel (rest.dropWhile (fun d => d = ' ' ∨ d = '\t'))
    else c :: collapseSpacesAux fuel rest

def collapseSpaces (cs : List Char) : List Char :=
  collapseSpacesAux (cs.length + 1) cs

/-- `cleanHtmlToText` of `src/lib/scraping.ts`: script/style removal,
block closing tags to newlines, tag stripping, `\r` removal, newline and
space collapsing, trim, and truncation to 15000 characters. -/
def cleanHtmlToText (rawHtml : List Char) : List Char :=
  let o := replaceBlocks "<script".data "</script>".data rawHtml
  let o := replaceBlocks "<style".data "</style>".data o
  let o := replaceCloseTags o
  let o := stripTags o
  let o := o.filter (fun c => c ≠ '\r')
  let o := collapseNewlines o
  let o := collapseSpaces o
  let o := jsTrim o
  if 15000 < o.length then o.take 15000 else o

/-- `parsePriceFromString` of `src/lib/scraping.ts`: strip whitespace,
keep only digits and separators, replace the first comma by a dot, then
`Number` with the `Number.isFinite` guard (`none` models the `null`
returns). -/
def parsePriceFromString (raw : List Char) : Option ℚ :=
  let cleaned := raw.filter (fun c => ¬ isJsSpace c)
  let cleaned := cleaned.filter (fun c => isDigitChar c ∨ c = '.' ∨ c = ',')
  jsNumber (replaceFirstComma cleaned)

/-- Word-character test for the regex `\b` boundary after `<article`. -/
def isWordChar (c : Char) : Bool :=
  isDigitChar c ∨ ('a' ≤ c ∧ c ≤ 'z') ∨ ('A' ≤ c ∧ c ≤ 'Z') ∨ c = '_'

/-- Largest `j ≤ bound` such that `lit` matches case-insensitively at
position `j` of `cs` — the backtracking result of a greedy `[^>]*lit`
(the greedy run is given back from the right until `lit` matches). -/
def lastOccurrenceCI (lit cs : List Char) : Nat → Option Nat
  | 0 => if (stripPrefixCI lit cs).isSome then some 0 else none
  | j + 1 =>
    if (stripPrefixCI lit (cs.drop (j + 1))).isSome then some (j + 1)
    else lastOccurrenceCI lit cs j

/-- Does `lit` occur case-insensitively anywhere in `cs`? -/
def containsCI (lit cs : List Char) : Bool := (splitAtFirstCI lit cs).isSome

/-- One attempt of the article regex
`/<article\b[^>]*data-sku="([^"]+)"[^>]*>([\s\S]*?)<\/article>/gi` at a
fixed position: literal opener with word boundary, greedy `[^>]*` (given
back to the last `data-sku="` occurrence), non-empty quoted sku, `[^>]*>`
up to the first `>`, lazy body up to the first `</article>`.  Returns
(sku, body, rest after the match).  The deterministic scan agrees with
the backtracking search whenever the article tag carries a single
`data-sku` attribute and the closing tag is present, which holds for
every input considered in this development. -/
def matchArticleAt (cs : List Char) : Option (List Char × List Char × List Char) :=
  match stripPrefixCI "<article".data cs with
  | none => none
  | some (_, rest1) =>
    let boundaryOk : Bool :=
      match rest1 with
      | [] => true
      | c :: _ => ¬ isWordChar c
    if ¬ boundaryOk then none
    else
      let skuLit := "data-sku=\"".data
      let run := rest1.takeWhile (fun d => d ≠ '>')
      match lastOccurrenceCI skuLit rest1 run.length with
      | none => none
      | some j =>
        let rest2 := rest1.drop (j + skuLit.length)
        let sku := rest2.takeWhile (fun d => d ≠ '"')
        if sku = [] then none
        else
          match rest2.drop sku.length with
          | '"' :: rest3 =>
            let run2 := rest3.takeWhile (fun d => d ≠ '>')
            match rest3.drop run2.length with
            | '>' :: rest4 =>
              match splitAtFirstCI "</article>".data rest4 with
              | some (body, rest5) => some (sku, body, rest5)
              | none => none
            | _ => none
          | _ => none

/-- Leftmost application of a position matcher (regex search): try the
matcher at each position from the left, first success wins. -/
def scanFirst (m : List Char → Option α) : Nat → List Char → Option α
  | 0, _ => none
  | _ + 1, [] => none
  | fuel + 1, c :: rest =>
    match m (c :: rest) with
    | some r => some r
    | none => scanFirst m fuel rest

def findFirstMatch (m : List Char → Option α) (cs : List Char) : Option α :=
  scanFirst m (cs.length + 1) cs

/-- The `while ((articleMatch = articleRegex.exec(rawHtml)) !== null)`
loop of a global regex: leftmost match, then resume after the match.
Every match consumes at least one character, so `length + 1` fuel always
suffices. -/
def collectArticlesAux : Nat → List Char → List (List Char × List Char)
  | 0, _ => []
  | fuel + 1, cs =>
    match findFirstMatch matchArticleAt cs with
    | none => []
    | some (sku, body, rest) => (sku, body) :: collectArticlesAux fuel rest

def collectArticles (cs : List Char) : List (List Char × List Char) :=
  collectArticlesAux (cs.length + 1) cs

/-- One attempt of
`/class="[^"]*product-name[^"]*"[^>]*>([^<]+)<\/h[1-6]>/i` at a fixed
position.  The quote-free run after `class="` must contain the class
name and end at a quote; `[^>]*>` runs to the first `>`; the non-empty
`[^<]+` capture runs to the first `<`, which must start `</h[1-6]>`. -/
def matchNameAt (cs : List Char) : Option (List Char) :=
  match stripPrefixCI "class=\"".data cs with
  | none => none
  | some (_, rest1) =>
    let run := rest1.takeWhile (fun d => d ≠ '"')
    if ¬ containsCI "product-name".data run then none
    else
      match rest1.drop run.length with
      | '"' :: rest2 =>
        let run2 := rest2.takeWhile (fun d => d ≠ '>')
        match rest2.drop run2.length with
        | '>' :: rest3 =>
          let content := rest3.takeWhile (fun d => d ≠ '<')
          if content = [] then none
          else
            match rest3.drop content.length with
            | '<' :: '/' :: c1 :: c2 :: '>' :: _ =>
              if (c1 = 'h' ∨ c1 = 'H') ∧ '1' ≤ c2 ∧ c2 ≤ '6' then some content
              else none
            | _ => none
        | _ => none
      | _ => none

/-- One attempt of
`/class="[^"]*product-price[^"]*"[^>]*data-price="([^"]+)"/i` at a fixed
position (greedy `[^>]*` given back to the last `data-price="`). -/
def matchPriceDataAt (cs : List Char) : Option (List Char) :=
  match stripPrefixCI "class=\"".data cs with
  | none => none
  | some (_, rest1) =>
    let run := rest1.takeWhile (fun d => d ≠ '"')
    if ¬ containsCI "product-price".data run then none
    else
      match rest1.drop run.length with
      | '"' :: rest2 =>
        let lit := "data-price=\"".data
        let run2 := rest2.takeWhile (fun d => d ≠ '>')
        match lastOccurrenceCI lit rest2 run2.length with
        | none => none
        | some j =>
          let rest3 := rest2.drop (j + lit.length)
          let value := rest3.takeWhile (fun d => d ≠ '"')
          if value = [] then none
          else
            match rest3.drop value.length with
            | '"' :: _ => some value
            | _ => none
      | _ => none

/-- One attempt of `/class="[^"]*CLASSNAME[^"]*"[^>]*>([^<]+)<\/p>/i` at a
fixed position (used for `product-price` display text and for
`product-availability`). -/
def matchClassTextAt (className : List Char) (cs : List Char) : Option (List Char) :=
  match stripPrefixCI "class=\"".data cs with
  | none => none
  | some (_, rest1) =>
    let run := rest1.takeWhile (fun d => d ≠ '"')
    if ¬ containsCI className run then none
    else
      match rest1.drop run.length with
      | '"' :: rest2 =>
        let run2 := rest2.takeWhile (fun d => d ≠ '>')
        match rest2.drop run2.length with
        | '>' :: rest3 =>
          let content := rest3.takeWhile (fun d => d ≠ '<')
          if content = [] then none
          else
            match rest3.drop content.length with
            | '<' :: '/' :: c1 :: '>' :: _ =>
              if c1 = 'p' ∨ c1 = 'P' then some content else none
            | _ => none
        | _ => none
      | _ => none

/-- The body of the article loop of `extractPricingFromHtml`: a block
missing the name or both price forms is skipped; the explicit
`data-price` attribute takes priority over display text; an unparseable
price skips the block; the currency is fixed to `EUR`. -/
def processArticle (sku articleHtml : List Char) : Option PricingItem :=
  let nameMatch := findFirstMatch matchNameAt articleHtml
  let priceDataMatch := findFirstMatch matchPriceDataAt articleHtml
  let priceTextMatch := findFirstMatch (matchClassTextAt "product-price".data) articleHtml
  let availabilityMatch := findFirstMatch (matchClassTextAt "product-availability".data) articleHtml
  match nameMatch with
  | none => none
  | some nm =>
    match
      (match priceDataMatch with
       | some v => some v
       | none => priceTextMatch) with
    | none => none
    | some rawPrice =>
      match parsePriceFromString rawPrice with
      | none => none
      | some price =>
        some { sku := sku
               name := jsTrim nm
               price := price
               currency := "EUR".data
               availability := availabilityMatch.map jsTrim }

/-- `extractPricingFromHtml` of `src/lib/scraping.ts`: iterate the global
article regex and keep the blocks that yield an item.  Note: this pass has
no bound on the number of items. -/
def extractPricingFromHtml (rawHtml : List Char) : List PricingItem :=
  (collectArticles rawHtml).filterMap (fun p => processArticle p.1 p.2)

/-- Outcome of the server-side `fetch`: a network failure (the promise
rejects) or a response with an HTTP status and a body. -/
inductive FetchOutcome where
  | networkError
  | response (status : Nat) (body : List Char)
deriving DecidableEq, Repr

/-- `ScrapeResult` of `src/lib/scraping.ts`. -/
structure ScrapeResult where
  rawHtml : List Char
  extractedText : List Char
  pricingData : List PricingItem
deriving DecidableEq, Repr

/-- `Response.ok`: status in the inclusive range 200–299. -/
def responseOk (status : Nat) : Bool := 200 ≤ status ∧ status ≤ 299

/-- `scrapePage` of `src/lib/scraping.ts`: a network error propagates; a
non-ok status throws; otherwise the body is cleaned and the structured
pricing pass is run.  `Except.error` models a thrown error. -/
def scrapePage (fetch : FetchOutcome) : Except Unit ScrapeResult :=
  match fetch with
  | .networkError => .error ()
  | .response status body =>
    if responseOk status then
      .ok { rawHtml := body
            extractedText := cleanHtmlToText body
            pricingData := extractPricingFromHtml body }
    else .error ()

end Scraping

namespace ScrapeRoute

open JsStr

/-- The `ChangeType` enumeration of the Prisma schema. -/
inductive ChangeType where
  | TEXT
  | PRICE
  | SECTION_ADDED
  | SECTION_REMOVED
  | OTHER
deriving DecidableEq, Repr

/-- A `Snapshot` row as the scrape route reads and writes it (nullable
columns are `Option`; a JSON column holding the pricing list is either a
stored list or the SQL NULL). -/
structure Snapshot where
  id : Nat
  monitoredPageId : Nat
  rawHtml : List Char
  extractedText : Option (List Char)
  capturedAt : Nat
  extractedPricing : Option (List PricingItem)
deriving DecidableEq, Repr

/-- A `Change` row as the scrape route creates it (all columns except the
page id and the change type are nullable in the schema). -/
structure Change where
  monitoredPageId : Nat
  oldSnapshotId : Option Nat
  newSnapshotId : Option Nat
  changeType : ChangeType
  field : Option (List Char)
  oldValue : Option (List Char)
  newValue : Option (List Char)
  changeSummary : Option (List Char)
deriving DecidableEq, Repr

/-- JSON string escaping for the characters that can occur in our values
(quote, backslash and ASCII control whitespace). -/
def jsonEscapeChar (c : Char) : List Char :=
  if c = '"' then ['\\', '"']
  else if c = '\\' then ['\\', '\\']
  else if c = '\n' then ['\\', 'n']
  else if c = '\r' then ['\\', 'r']
  else if c = '\t' then ['\\', 't']
  else [c]

def jsonStr (s : List Char) : List Char :=
  '"' :: (s.map jsonEscapeChar).flatten ++ ['"']

/-- Number of times `p` divides `n` (0 for `n = 0`). -/
def countFactorAux (p : Nat) : Nat → Nat → Nat
  | 0, _ => 0
  | fuel + 1, n => if 2 ≤ p ∧ n % p = 0 ∧ 0 < n then countFactorAux p fuel (n / p) + 1 else 0

def countFactor (p n : Nat) : Nat := countFactorAux p n n

def padLeftZeros (k : Nat) (ds : List Char) : List Char :=
  List.replicate (k - ds.length) '0' ++ ds

/-- JavaScript number-to-string for the values stored by the pipeline:
rationals whose reduced denominator divides a power of ten are printed in
canonical decimal form without trailing fractional zeros, which is what
`JSON.stringify` produces for them (all amounts arise from short decimal
literals, far below the precision where double rounding or exponent
notation would alter the output). -/
def qToChars (q : ℚ) : List Char :=
  let sign : List Char := if q < 0 then ['-'] else []
  let n := q.num.natAbs
  let d := q.den
  let k := max (countFactor 2 d) (countFactor 5 d)
  let m := n * 10 ^ k / d
  if k = 0 then sign ++ natToChars m
  else sign ++ natToChars (m / 10 ^ k) ++ '.' :: padLeftZeros k (natToChars (m % 10 ^ k))

def stringifyOptStr : Option (List Char) → List Char
  | none => "null".data
  | some s => jsonStr s

def stringifyOptNum : Option ℚ → List Char
  | none => "null".data
  | some q => qToChars q

/-- `JSON.stringify` of one loose-pass pricing item.  The key order is
fixed; both compared values are read back from the same JSONB column, so
the database normalises key order identically on the two sides and a
fixed order is behaviourally faithful for the equality test. -/
def stringifyItem (i : PricingItem) : List Char :=
  ['\x7b'] ++ jsonStr "label".data ++ [':'] ++ stringifyOptStr i.label
    ++ [','] ++ jsonStr "amount".data ++ [':'] ++ stringifyOptNum i.amount
    ++ [','] ++ jsonStr "currency".data ++ [':'] ++ stringifyOptStr i.currency
    ++ [','] ++ jsonStr "rawLine".data ++ [':'] ++ jsonStr i.rawLine
    ++ ['\x7d']

def stringifyItems (l : List PricingItem) : List Char :=
  '[' :: (List.intercalate [','] (l.map stringifyItem)) ++ [']']

/-- `JSON.stringify(x ?? null)` for the pricing column: the SQL NULL
serialises as `null`. -/
def stringifyPricingOpt : Option (List PricingItem) → List Char
  | none => "null".data
  | some l => stringifyItems l

/-- The value stored in `extractedPricing` at snapshot creation:
`pricingData.length > 0 ? pricingData : undefined`, the `undefined`
branch leaving the column NULL. -/
def storePricing (items : List PricingItem) : Option (List PricingItem) :=
  if 0 < items.length then some items else none

/-- The TEXT change record of the detector. -/
def mkTextChange (pageId : Nat) (prevId newId : Nat) (oldText newText : List Char) : Change :=
  { monitoredPageId := pageId
    oldSnapshotId := some prevId
    newSnapshotId := some newId
    changeType := .TEXT
    field := some "content".data
    oldValue := some (oldText.take 2000)
    newValue := some (newText.take 2000)
    changeSummary := some ("Contenu texte modifié (longueur ".data
      ++ natToChars oldText.length ++ " → ".data ++ natToChars newText.length
      ++ "). / Text content changed (length ".data
      ++ natToChars oldText.length ++ " → ".data ++ natToChars newText.length
      ++ ").".data) }

/-- The PRICE change record of the detector. -/
def mkPriceChange (pageId : Nat) (prevId newId : Nat)
    (oldPricing newPricing : Option (List PricingItem)) : Change :=
  { monitoredPageId := pageId
    oldSnapshotId := some prevId
    newSnapshotId := some newId
    changeType := .PRICE
    field := some "pricing".data
    oldValue := some ((stringifyPricingOpt oldPricing).take 2000)
    newValue := some ((stringifyPricingOpt newPricing).take 2000)
    changeSummary := some
      "Tarifs ou plans modifiés sur cette page. / Pricing or plans changed on this page.".data }

/-- The TEXT emission test of the detector:
`contentChanged && (lengthDelta > MIN_LENGTH_DELTA || newLen === 0)` with
`MIN_LENGTH_DELTA = 20` and `lengthDelta = Math.abs(newLen - oldLen)`. -/
def textChangeCond (oldText newText : List Char) : Bool :=
  (!(oldText == newText))
    && (decide (20 < Nat.dist newText.length oldText.length)
      || decide (newText.length = 0))

/-- The PRICE emission test of the detector:
`pricingChanged && (oldPricing || newPricing)` where `pricingChanged`
compares the `JSON.stringify` forms; the JavaScript truthiness test on a
value that is either SQL NULL or a JSON array holds exactly when the
value is non-NULL. -/
def priceChangeCond (oldPricing newPricing : Option (List PricingItem)) : Bool :=
  (!(stringifyPricingOpt oldPricing == stringifyPricingOpt newPricing))
    && (oldPricing.isSome || newPricing.isSome)

/-- The JSON body and status of the scrape route response. -/
structure ScrapeResponse where
  status : Nat
  snapshot : Option Snapshot
  change : Option Change
  hasChange : Bool
deriving DecidableEq, Repr

/-- Everything a scrape run persists plus its response. -/
structure ScrapeRunResult where
  createdSnapshots : List Snapshot
  createdChanges : List Change
  response : ScrapeResponse
deriving DecidableEq, Repr

/-- The snapshot row created unconditionally by the handler
(`prisma.snapshot.create`): the loose pricing pass runs on the extracted
text and is stored only when non-empty.  `nextSnapId` models the
autoincrement id, `now` the capture timestamp. -/
def mkNewSnapshot (pageId nextSnapId now : Nat) (res : Scraping.ScrapeResult) : Snapshot :=
  { id := nextSnapId
    monitoredPageId := pageId
    rawHtml := res.rawHtml
    extractedText := some res.extractedText
    capturedAt := now
    extractedPricing := storePricing (extractPricingFromText (some res.extractedText)) }

/-- The comparison block of the handler, run only when a prior snapshot
exists: the TEXT comparison first, then the PRICE comparison (always
attempted); the response carries the first created change and whether any
change was created.  `newText` is the handler's local
`extractedText ?? ''`, the same text stored in the new snapshot. -/
def detectChanges (pageId : Nat) (prevSnap newSnapshot : Snapshot) (newText : List Char) :
    ScrapeRunResult :=
  let oldText := prevSnap.extractedText.getD []
  let textCond : Bool := textChangeCond oldText newText
  let textChange := mkTextChange pageId prevSnap.id newSnapshot.id oldText newText
  let textChanges := if textCond then [textChange] else []
  let oldPricing := prevSnap.extractedPricing
  let newPricing := newSnapshot.extractedPricing
  let priceCond : Bool := priceChangeCond oldPricing newPricing
  let priceChange := mkPriceChange pageId prevSnap.id newSnapshot.id oldPricing newPricing
  let priceChanges := if priceCond then [priceChange] else []
  let change : Option Change :=
    if textCond then some textChange
    else if priceCond then some priceChange
    else none
  ⟨[newSnapshot], textChanges ++ priceChanges,
    ⟨201, some newSnapshot, change, textCond || priceCond⟩⟩

/-- The successful-fetch continuation of the handler: persist the new
snapshot, then compare against the prior snapshot when one exists. -/
def processScrapeResult (pageId : Nat) (prev : Option Snapshot) (nextSnapId now : Nat)
    (res : Scraping.ScrapeResult) : ScrapeRunResult :=
  let newSnapshot := mkNewSnapshot pageId nextSnapId now res
  match prev with
  | none => ⟨[newSnapshot], [], ⟨201, some newSnapshot, none, false⟩⟩
  | some prevSnap => detectChanges pageId prevSnap newSnapshot res.extractedText

/-- The POST handler of the scrape route, from the point where the
monitored page exists and its latest prior snapshot (if any) has been
loaded.  A fetch failure is caught and answered with status 500 before
anything is written. -/
def runScrapePost (pageId : Nat) (prev : Option Snapshot) (nextSnapId now : Nat)
    (fetch : Scraping.FetchOutcome) : ScrapeRunResult :=
  match Scraping.scrapePage fetch with
  | .error _ => ⟨[], [], ⟨500, none, none, false⟩⟩
  | .ok res => processScrapeResult pageId prev nextSnapId now res

/-- Does the run create a change record of the given kind? -/
def emitsChangeOfType (r : ScrapeRunResult) (t : ChangeType) : Bool :=
  r.createdChanges.any (fun c => c.changeType == t)

end ScrapeRoute

namespace ReportsRoute

open JsStr

/-- A change row as the reports route reads it (only the fields the
handler consumes are modelled; the prompt rendering itself is not the
subject of any claim). -/
structure ChangeRow where
  id : Nat
  changeType : ScrapeRoute.ChangeType
  changeSummary : Option (List Char)
deriving DecidableEq, Repr

/-- A JSON value (the `highlights` payload is schemaless JSONB). -/
inductive JsonVal where
  | null
  | bool (b : Bool)
  | num (q : ℚ)
  | str (s : List Char)
  | arr (xs : List JsonVal)
  | obj (fields : List (List Char × JsonVal))

/-- `AiReportResult` of the reports route. -/
structure AiReportResult where
  aiSummary : List Char
  highlights : JsonVal

/-- A `Report` row as the reports route creates it. -/
structure ReportRow where
  projectId : Nat
  periodStart : Option Int
  periodEnd : Option Int
  generatedAt : Int
  aiSummary : Option (List Char)
  highlights : Option JsonVal
  pdfUrl : Option (List Char)

/-- Seven days in milliseconds.  `periodEnd.setDate(periodEnd.getDate() + 7)`
advances a date by seven calendar days; on the integer timeline of the
model (no daylight-saving discontinuities) that is exactly this many
milliseconds. -/
def sevenDaysMs : Int := 7 * 86400000

/-- Window resolution of the reports POST handler: derive the missing
bound from the given one, fall back to the last seven days when neither
is given (both `new Date()` calls modelled as the same instant `now`),
then swap the bounds if they are out of order. -/
def resolveWindow (periodStart periodEnd : Option Int) (now : Int) : Int × Int :=
  let derived : Option Int × Option Int :=
    match periodStart, periodEnd with
    | some s, none => (some s, some (s + sevenDaysMs))
    | none, some e => (some (e - sevenDaysMs), some e)
    | x, y => (x, y)
  let resolved : Int × Int :=
    match derived with
    | (some s, some e) => (s, e)
    | _ => (now - sevenDaysMs, now)
  if resolved.1 > resolved.2 then (resolved.2, resolved.1) else resolved

/-- The static summary returned when the change set is empty. -/
def noChangesMsg : List Char :=
  "Aucun changement détecté sur les pages surveillées pendant cette période. / No changes detected on monitored pages during this period.".data

/-- `generateAiReport`: with no API key configured the function returns
`null` before doing anything else; with an empty change set it returns
the static summary with empty highlights without calling the model; the
external call itself (everything inside the `try`, including prompt
construction, the OpenAI request, JSON parsing and the array coercion of
`highlights`) is modelled by the oracle `aiOutcome`, whose `none` covers
the logged-and-swallowed failure paths. -/
def generateAiReport (hasApiKey : Bool) (changes : List ChangeRow)
    (aiOutcome : Option AiReportResult) : Option AiReportResult :=
  if ¬ hasApiKey then none
  else if changes.length = 0 then some ⟨noChangesMsg, .arr []⟩
  else aiOutcome

/-- The POST handler of the reports route from the point where the
request body has been validated and the project exists: resolve the
window, load the changes of the window (passed in as `changes`), run the
AI step when `useAi` (default `true`) requests it, and create the report
row.  A missing AI result leaves `aiSummary` at `null` and `highlights`
at `undefined`, which persists as the SQL NULL. -/
def createReportPost (projectId : Nat) (bodyStart bodyEnd : Option Int)
    (bodyUseAi : Option Bool) (now : Int) (hasApiKey : Bool)
    (changes : List ChangeRow) (aiOutcome : Option AiReportResult) : ReportRow :=
  let w := resolveWindow bodyStart bodyEnd now
  let useAi := bodyUseAi.getD true
  let aiResult := if useAi then generateAiReport hasApiKey changes aiOutcome else none
  { projectId := projectId
    periodStart := some w.1
    periodEnd := some w.2
    generatedAt := now
    aiSummary := aiResult.map (fun r => r.aiSummary)
    highlights := aiResult.map (fun r => r.highlights)
    pdfUrl := none }

end ReportsRoute

/-!
## Claim theorems
-/

/-- C7: report window resolution — given only `periodStart` the window is
`[periodStart, periodStart + 7 days]`; given neither bound it is
`[now - 7 days, now]`; given `periodStart > periodEnd` the bounds are
swapped before use. -/
theorem C7_window_resolution :
    (∀ s now : Int,
      ReportsRoute.resolveWindow (some s) none now = (s, s + ReportsRoute.sevenDaysMs)) ∧
    (∀ now : Int,
      ReportsRoute.resolveWindow none none now = (now - ReportsRoute.sevenDaysMs, now)) ∧
    (∀ s e now : Int, e < s →
      ReportsRoute.resolveWindow (some s) (some e) now = (e, s)) := by
  refine ⟨?_, ?_, ?_⟩
  · intro s now
    simp only [ReportsRoute.resolveWindow, ReportsRoute.sevenDaysMs]
    norm_num
  · intro now
    simp only [ReportsRoute.resolveWindow, ReportsRoute.sevenDaysMs]
    norm_num
  · intro s e now h
    simp only [ReportsRoute.resolveWindow, ReportsRoute.sevenDaysMs]
    rw [if_pos (by omega)]

/-- C7 witness: the three window-resolution rules at concrete instants. -/
theorem C7_window_resolution_witness :
    ReportsRoute.resolveWindow (some 100) none 0 = (100, 100 + ReportsRoute.sevenDaysMs) ∧
    ReportsRoute.resolveWindow none none 42 = (42 - ReportsRoute.sevenDaysMs, 42) ∧
    ReportsRoute.resolveWindow (some 9) (some 3) 0 = (3, 9) :=
  ⟨C7_window_resolution.1 100 0, C7_window_resolution.2.1 42,
    C7_window_resolution.2.2 9 3 0 (by norm_num)⟩

/-- C6 counterexample: with a nonempty change window and no synthesis
credential, the persisted report's `highlights` column is NULL, not the
empty array the claim states. -/
theorem C6_highlights_counterexample :
    (ReportsRoute.createReportPost 1 none none none 0 false
        [⟨1, .TEXT, none⟩] none).highlights ≠ some (.arr []) := by
  simp [ReportsRoute.createReportPost, ReportsRoute.generateAiReport]

/-- C6 (amended): with no synthesis credential configured, report
creation still succeeds for a window with at least one change, and the
persisted report has a null summary and a null (unset) `highlights`
column. -/
theorem C6_no_credential_null_fields (projectId : Nat) (bodyStart bodyEnd : Option Int)
    (bodyUseAi : Option Bool) (now : Int) (changes : List ReportsRoute.ChangeRow)
    (aiOutcome : Option ReportsRoute.AiReportResult) (hchanges : changes ≠ []) :
    (ReportsRoute.createReportPost projectId bodyStart bodyEnd bodyUseAi now false changes
        aiOutcome).aiSummary = none ∧
    (ReportsRoute.createReportPost projectId bodyStart bodyEnd bodyUseAi now false changes
        aiOutcome).highlights = none ∧
    (ReportsRoute.createReportPost projectId bodyStart bodyEnd bodyUseAi now false changes
        aiOutcome).projectId = projectId := by
  simp [ReportsRoute.createReportPost, ReportsRoute.generateAiReport]

/-- C6 witness. -/
theorem C6_no_credential_null_fields_witness :
    (ReportsRoute.createReportPost 1 none none none 0 false
        [⟨1, .TEXT, none⟩] none).aiSummary = none ∧
    (ReportsRoute.createReportPost 1 none none none 0 false
        [⟨1, .TEXT, none⟩] none).highlights = none ∧
    (ReportsRoute.createReportPost 1 none none none 0 false
        [⟨1, .TEXT, none⟩] none).projectId = 1 :=
  C6_no_credential_null_fields 1 none none none 0 [⟨1, .TEXT, none⟩] none (by simp)

/-- C8: loose-pass parsing examples — `"84,90 €"` yields amount 84.9 with
currency EUR, `"$54.90"` yields amount 54.9 with currency USD, and
`"119.00"` without a currency marker yields no item. -/
theorem C8_price_parsing_examples :
    (ScrapeRoute.extractPricingFromText (some "84,90 €".data)).map
        (fun i => (i.amount, i.currency)) = [(some (849 / 10 : ℚ), some "EUR".data)] ∧
    (ScrapeRoute.extractPricingFromText (some "$54.90".data)).map
        (fun i => (i.amount, i.currency)) = [(some (549 / 10 : ℚ), some "USD".data)] ∧
    ScrapeRoute.extractPricingFromText (some "119.00".data) = [] := by
  refine ⟨?_, ?_, by decide⟩
  · rw [show (849 / 10 : ℚ) = mkRat 849 10 by rw [Rat.mkRat_eq_div]; norm_num]
    decide
  · rw [show (549 / 10 : ℚ) = mkRat 549 10 by rw [Rat.mkRat_eq_div]; norm_num]
    decide

/-- C4 counterexample: a line with the 3-letter code before the number is
not matched by the loose pass — `"EUR 49"` yields no item, although the
claim states it yields one. -/
theorem C4_code_before_number_counterexample :
    ScrapeRoute.extractPricingFromText (some "EUR 49".data) = [] := by decide

/-- C4 (amended): the loose pass recognises the currency token placed
after the number for each of €, EUR, EURO, $, USD (case-insensitively,
with or without spacing) and normalises it to EUR or USD; placed before
the number only the `$` token is recognised — a leading 3-letter code or
euro sign yields no item. -/
theorem C4_currency_token_positions :
    (ScrapeRoute.extractPricingFromText (some "49 €".data)).map
        (fun i => (i.amount, i.currency)) = [(some (mkRat 49 1), some "EUR".data)] ∧
    (ScrapeRoute.extractPricingFromText (some "49eur".data)).map
        (fun i => (i.amount, i.currency)) = [(some (mkRat 49 1), some "EUR".data)] ∧
    (ScrapeRoute.extractPricingFromText (some "49 EURO".data)).map
        (fun i => (i.amount, i.currency)) = [(some (mkRat 49 1), some "EUR".data)] ∧
    (ScrapeRoute.extractPricingFromText (some "49$".data)).map
        (fun i => (i.amount, i.currency)) = [(some (mkRat 49 1), some "USD".data)] ∧
    (ScrapeRoute.extractPricingFromText (some "49 Usd".data)).map
        (fun i => (i.amount, i.currency)) = [(some (mkRat 49 1), some "USD".data)] ∧
    (ScrapeRoute.extractPricingFromText (some "$ 49".data)).map
        (fun i => (i.amount, i.currency)) = [(some (mkRat 49 1), some "USD".data)] ∧
    ScrapeRoute.extractPricingFromText (some "usd 49".data) = [] ∧
    ScrapeRoute.extractPricingFromText (some "€ 49".data) = [] := by
  exact ⟨by decide, by decide, by decide, by decide, by decide, by decide, by decide, by decide⟩

/-- Helper: the final truncation step bounds the length by 15000. -/
theorem length_trunc_le (l : List Char) :
    (if 15000 < l.length then l.take 15000 else l).length ≤ 15000 := by
  split_ifs with h
  · simp
  · omega

/-- Helper: the loose-pass loop never grows its accumulator past 50. -/
theorem collectItems_length_le (lines : List (List Char)) :
    ∀ acc : List ScrapeRoute.PricingItem, acc.length ≤ 50 →
      (ScrapeRoute.collectItems lines acc).length ≤ 50 := by
  induction lines with
  | nil => intro acc h; simpa [ScrapeRoute.collectItems] using h
  | cons l rest ih =>
    intro acc h
    simp only [ScrapeRoute.collectItems]
    split_ifs with h50
    · exact h
    · rcases hp : ScrapeRoute.processLine l with _ | item
      · exact ih acc h
      · exact ih _ (by simp; omega)

/-- C3 (amended): the normaliser output is at most 15000 characters and
the loose pricing pass returns at most 50 items; the structured pass over
raw markup, by contrast, has no item cap (see the counterexample). -/
theorem C3_output_bounds :
    (∀ raw : List Char, (Scraping.cleanHtmlToText raw).length ≤ 15000) ∧
    (∀ text : Option (List Char), (ScrapeRoute.extractPricingFromText text).length ≤ 50) := by
  constructor
  · intro raw
    unfold Scraping.cleanHtmlToText
    exact length_trunc_le _
  · intro text
    rcases text with _ | t
    · simp [ScrapeRoute.extractPricingFromText]
    · simp only [ScrapeRoute.extractPricingFromText]
      split_ifs
      · simp
      · exact collectItems_length_le _ _ (by simp)

/-- A complete product block for the structured pass. -/
def exBlock : List Char :=
  "<article data-sku=\"a\">x<h1 class=\"product-name\">n</h1><b class=\"product-price\" data-price=\"1\">y</b></article>".data

def exSku : List Char := "a".data

def exBody : List Char :=
  "x<h1 class=\"product-name\">n</h1><b class=\"product-price\" data-price=\"1\">y</b>".data

def exArticleItem : Scraping.PricingItem :=
  ⟨"a".data, "n".data, mkRat 1 1, "EUR".data, none⟩

/-- Markup with 51 complete product blocks. -/
def exManyArticles : List Char := (List.replicate 51 exBlock).flatten

/-- Helper: the article regex consumes exactly one block at the front. -/
theorem exArticle_step (rest : List Char) :
    Scraping.findFirstMatch Scraping.matchArticleAt (exBlock ++ rest) =
      some (exSku, exBody, rest) := rfl

/-- Helper: one block yields one structured item. -/
theorem processArticle_exBody : Scraping.processArticle exSku exBody = some exArticleItem := by
  decide

/-- Helper: the exec loop maps `n` repeated blocks to `n` matches. -/
theorem collectArticlesAux_repeat :
    ∀ n fuel : Nat, n ≤ fuel →
      Scraping.collectArticlesAux fuel ((List.replicate n exBlock).flatten) =
        List.replicate n (exSku, exBody) := by
  intro n
  induction n with
  | zero =>
    intro fuel _
    cases fuel <;>
      simp [Scraping.collectArticlesAux, Scraping.findFirstMatch, Scraping.scanFirst]
  | succ n ih =>
    intro fuel h
    match fuel, h with
    | fuel + 1, h =>
      rw [List.replicate_succ, List.flatten_cons]
      simp only [Scraping.collectArticlesAux, exArticle_step]
      rw [ih fuel (by omega)]
      rfl

/-- Helper: `n` repeated blocks occupy at least `n` characters. -/
theorem repBlocks_length_ge : ∀ n : Nat, n ≤ ((List.replicate n exBlock).flatten).length := by
  intro n
  induction n with
  | zero => simp
  | succ n ih =>
    rw [List.replicate_succ, List.flatten_cons, List.length_append]
    have hb : 1 ≤ exBlock.length := by decide
    omega

/-- Helper: the article matches of the 51-block input. -/
theorem collectArticles_exMany :
    Scraping.collectArticles exManyArticles = List.replicate 51 (exSku, exBody) := by
  show Scraping.collectArticlesAux (exManyArticles.length + 1)
      ((List.replicate 51 exBlock).flatten) = _
  exact collectArticlesAux_repeat 51 _
    (by have := repBlocks_length_ge 51; simp [exManyArticles] at this ⊢; omega)

/-- Helper: each of the `n` matches yields its item. -/
theorem filterMap_replicate_article :
    ∀ n, ((List.replicate n (exSku, exBody)).filterMap
        (fun p => Scraping.processArticle p.1 p.2)) = List.replicate n exArticleItem := by
  intro n
  induction n with
  | zero => simp
  | succ n ih => simp [List.replicate_succ, List.filterMap_cons, processArticle_exBody, ih]

/-- C3 counterexample: the structured pricing pass has no 50-item cap —
on markup with 51 complete product blocks it returns 51 items, refuting
the claim that each pricing-extraction pass returns at most 50 items. -/
theorem C3_structured_pass_uncapped :
    50 < (Scraping.extractPricingFromHtml exManyArticles).length := by
  have h : Scraping.extractPricingFromHtml exManyArticles = List.replicate 51 exArticleItem := by
    simp only [Scraping.extractPricingFromHtml]
    rw [collectArticles_exMany, filterMap_replicate_article]
  rw [h]
  simp

/-- Helper: a 2xx response makes `scrapePage` succeed with the cleaned
text and the structured pricing pass. -/
theorem scrapePage_ok (status : Nat) (body : List Char)
    (hok : Scraping.responseOk status = true) :
    Scraping.scrapePage (.response status body) =
      .ok ⟨body, Scraping.cleanHtmlToText body, Scraping.extractPricingFromHtml body⟩ := by
  simp only [Scraping.scrapePage]
  rw [hok]
  rfl

/-- Helper: shape of a run whose fetch succeeds. -/
theorem runScrapePost_ok (pageId : Nat) (prev : Option ScrapeRoute.Snapshot)
    (nid now status : Nat) (body : List Char) (hok : Scraping.responseOk status = true) :
    ScrapeRoute.runScrapePost pageId prev nid now (.response status body) =
      ScrapeRoute.processScrapeResult pageId prev nid now
        ⟨body, Scraping.cleanHtmlToText body, Scraping.extractPricingFromHtml body⟩ := by
  unfold ScrapeRoute.runScrapePost
  rw [scrapePage_ok status body hok]

/-- Helper: with a prior snapshot the run defers to the detector. -/
theorem processScrapeResult_some (pageId nid now : Nat) (p : ScrapeRoute.Snapshot)
    (res : Scraping.ScrapeResult) :
    ScrapeRoute.processScrapeResult pageId (some p) nid now res =
      ScrapeRoute.detectChanges pageId p (ScrapeRoute.mkNewSnapshot pageId nid now res)
        res.extractedText := rfl

/-- Helper: with no prior snapshot the run only records the capture. -/
theorem processScrapeResult_none (pageId nid now : Nat) (res : Scraping.ScrapeResult) :
    ScrapeRoute.processScrapeResult pageId none nid now res =
      ⟨[ScrapeRoute.mkNewSnapshot pageId nid now res], [],
        ⟨201, some (ScrapeRoute.mkNewSnapshot pageId nid now res), none, false⟩⟩ := rfl

/-- Helper: the stored pricing of the created snapshot. -/
theorem mkNewSnapshot_pricing (pageId nid now : Nat) (res : Scraping.ScrapeResult) :
    (ScrapeRoute.mkNewSnapshot pageId nid now res).extractedPricing =
      ScrapeRoute.storePricing (ScrapeRoute.extractPricingFromText
        (some res.extractedText)) := rfl

/-- Helper: the detector emits a TEXT change exactly on its TEXT test. -/
theorem detect_emits_text (pageId : Nat) (p snap : ScrapeRoute.Snapshot)
    (newText : List Char) :
    ScrapeRoute.emitsChangeOfType (ScrapeRoute.detectChanges pageId p snap newText) .TEXT =
      ScrapeRoute.textChangeCond (p.extractedText.getD []) newText := by
  simp only [ScrapeRoute.detectChanges]
  cases htc : ScrapeRoute.textChangeCond (p.extractedText.getD []) newText <;>
    cases hpc : ScrapeRoute.priceChangeCond p.extractedPricing snap.extractedPricing <;>
      simp [htc, hpc, ScrapeRoute.emitsChangeOfType, ScrapeRoute.mkTextChange,
        ScrapeRoute.mkPriceChange]

/-- Helper: the detector emits a PRICE change exactly on its PRICE test. -/
theorem detect_emits_price (pageId : Nat) (p snap : ScrapeRoute.Snapshot)
    (newText : List Char) :
    ScrapeRoute.emitsChangeOfType (ScrapeRoute.detectChanges pageId p snap newText) .PRICE =
      ScrapeRoute.priceChangeCond p.extractedPricing snap.extractedPricing := by
  simp only [ScrapeRoute.detectChanges]
  cases htc : ScrapeRoute.textChangeCond (p.extractedText.getD []) newText <;>
    cases hpc : ScrapeRoute.priceChangeCond p.extractedPricing snap.extractedPricing <;>
      simp [htc, hpc, ScrapeRoute.emitsChangeOfType, ScrapeRoute.mkTextChange,
        ScrapeRoute.mkPriceChange]

/-- Helper: the TEXT test as a proposition. -/
theorem textChangeCond_iff (oldText newText : List Char) :
    ScrapeRoute.textChangeCond oldText newText = true ↔
      (oldText ≠ newText ∧
        (20 < Nat.dist newText.length oldText.length ∨ newText = [])) := by
  simp [ScrapeRoute.textChangeCond, Bool.and_eq_true, Bool.or_eq_true, decide_eq_true_eq,
    Bool.not_eq_true', beq_eq_false_iff_ne, List.length_eq_zero]

/-- Helper: the PRICE test as a proposition. -/
theorem priceChangeCond_iff (oldPricing newPricing : Option (List ScrapeRoute.PricingItem)) :
    ScrapeRoute.priceChangeCond oldPricing newPricing = true ↔
      (ScrapeRoute.stringifyPricingOpt oldPricing ≠
          ScrapeRoute.stringifyPricingOpt newPricing ∧
        (oldPricing.isSome = true ∨ newPricing.isSome = true)) := by
  simp [ScrapeRoute.priceChangeCond, Bool.and_eq_true, Bool.or_eq_true,
    Bool.not_eq_true', beq_eq_false_iff_ne]

/-- C1: on a run with a prior capture, a TEXT-kind change is created iff
the new normalised text differs from the prior text and (the absolute
length difference exceeds 20 or the new text is empty). -/
theorem C1_text_change_iff (pageId nid now status : Nat) (body : List Char)
    (prevSnap : ScrapeRoute.Snapshot) (hok : Scraping.responseOk status = true) :
    (ScrapeRoute.emitsChangeOfType
        (ScrapeRoute.runScrapePost pageId (some prevSnap) nid now (.response status body))
        .TEXT = true ↔
      (prevSnap.extractedText.getD [] ≠ Scraping.cleanHtmlToText body ∧
        (20 < Nat.dist (Scraping.cleanHtmlToText body).length
            (prevSnap.extractedText.getD []).length ∨
          Scraping.cleanHtmlToText body = []))) := by
  rw [runScrapePost_ok pageId _ nid now status body hok, processScrapeResult_some,
    detect_emits_text]
  exact textChangeCond_iff _ _

/-- Prior snapshot with empty prior text, used in witnesses. -/
def exPrevEmpty : ScrapeRoute.Snapshot := ⟨5, 1, [], some [], 0, none⟩

/-- A plain 34-character body for witnesses. -/
def exBodyText : List Char := "hello world this is a longer text.".data

/-- C1 witness: a 34-character text replacing an empty prior text emits a
TEXT change. -/
theorem C1_text_change_iff_witness :
    ScrapeRoute.emitsChangeOfType
      (ScrapeRoute.runScrapePost 1 (some exPrevEmpty) 6 1 (.response 200 exBodyText))
      .TEXT = true :=
  (C1_text_change_iff 1 6 1 200 exBodyText exPrevEmpty rfl).mpr (by decide)

/-- Loose-pass item for the line `1 €`. -/
def exItemOne : ScrapeRoute.PricingItem :=
  ⟨some "1 €".data, some (mkRat 1 1), some "EUR".data, "1 €".data⟩

/-- Loose-pass item for the line `2 €`. -/
def exItemTwo : ScrapeRoute.PricingItem :=
  ⟨some "2 €".data, some (mkRat 2 1), some "EUR".data, "2 €".data⟩

/-- Body whose loose pass yields `[exItemTwo, exItemOne]`. -/
def exBodyPrices : List Char := "2 €\n1 €".data

/-- Prior snapshot holding the same two items in the other order and the
same text as `exBodyPrices` normalises to. -/
def exPrevSwapped : ScrapeRoute.Snapshot :=
  ⟨5, 1, [], some exBodyPrices, 0, some [exItemOne, exItemTwo]⟩

/-- C2: on a run with a prior capture, a PRICE-kind change is created iff
the serialised pricing lists differ and at least one side is non-null;
a stored pricing list is never the empty list (so non-null coincides with
non-empty); and the serialised comparison is order-sensitive — the same
two items in swapped order are treated as changed. -/
theorem C2_price_change_iff :
    (∀ (pageId nid now status : Nat) (body : List Char)
        (prevSnap : ScrapeRoute.Snapshot),
      Scraping.responseOk status = true →
      (ScrapeRoute.emitsChangeOfType
          (ScrapeRoute.runScrapePost pageId (some prevSnap) nid now (.response status body))
          .PRICE = true ↔
        (ScrapeRoute.stringifyPricingOpt prevSnap.extractedPricing ≠
            ScrapeRoute.stringifyPricingOpt (ScrapeRoute.storePricing
              (ScrapeRoute.extractPricingFromText
                (some (Scraping.cleanHtmlToText body)))) ∧
          (prevSnap.extractedPricing.isSome = true ∨
            (ScrapeRoute.storePricing (ScrapeRoute.extractPricingFromText
              (some (Scraping.cleanHtmlToText body)))).isSome = true)))) ∧
    (∀ items : List ScrapeRoute.PricingItem,
      ScrapeRoute.storePricing items ≠ some []) ∧
    (ScrapeRoute.stringifyPricingOpt (some [exItemOne, exItemTwo]) ≠
      ScrapeRoute.stringifyPricingOpt (some [exItemTwo, exItemOne]) ∧
      ScrapeRoute.emitsChangeOfType
        (ScrapeRoute.runScrapePost 1 (some exPrevSwapped) 6 1 (.response 200 exBodyPrices))
        .PRICE = true) := by
  refine ⟨?_, ?_, by decide, by decide⟩
  · intro pageId nid now status body prevSnap hok
    rw [runScrapePost_ok pageId _ nid now status body hok, processScrapeResult_some,
      detect_emits_price, mkNewSnapshot_pricing]
    exact priceChangeCond_iff _ _
  · intro items h
    by_cases hl : 0 < items.length
    · simp [ScrapeRoute.storePricing, hl] at h
      subst h
      simp at hl
    · simp [ScrapeRoute.storePricing, hl] at h

/-- C2 witness: the swapped-order run, via the iff of the theorem. -/
theorem C2_price_change_iff_witness :
    ScrapeRoute.emitsChangeOfType
      (ScrapeRoute.runScrapePost 1 (some exPrevSwapped) 6 1 (.response 200 exBodyPrices))
      .PRICE = true :=
  (C2_price_change_iff.1 1 6 1 200 exBodyPrices exPrevSwapped rfl).mpr (by decide)

/-- Helper: a network error yields the 500 response and no writes. -/
theorem runScrapePost_fail_network (pageId nid now : Nat)
    (prev : Option ScrapeRoute.Snapshot) :
    ScrapeRoute.runScrapePost pageId prev nid now .networkError =
      ⟨[], [], ⟨500, none, none, false⟩⟩ := rfl

/-- Helper: a non-2xx status yields the 500 response and no writes. -/
theorem runScrapePost_fail_status (pageId nid now status : Nat) (body : List Char)
    (prev : Option ScrapeRoute.Snapshot) (hbad : Scraping.responseOk status = false) :
    ScrapeRoute.runScrapePost pageId prev nid now (.response status body) =
      ⟨[], [], ⟨500, none, none, false⟩⟩ := by
  unfold ScrapeRoute.runScrapePost
  simp only [Scraping.scrapePage]
  rw [hbad]
  rfl

/-- Helper: the detector always answers 201. -/
theorem detectChanges_status (pageId : Nat) (p snap : ScrapeRoute.Snapshot)
    (newText : List Char) :
    (ScrapeRoute.detectChanges pageId p snap newText).response.status = 201 := rfl

/-- C5: a failed fetch (network error or non-2xx status) aborts the run —
no snapshot and no change row is created and the caller receives the 500
error response — while any successful fetch answers 201, so the failure
is distinct from a successful run that found no change. -/
theorem C5_fetch_failure_aborts :
    (∀ (pageId nid now : Nat) (prev : Option ScrapeRoute.Snapshot),
      ScrapeRoute.runScrapePost pageId prev nid now .networkError =
        ⟨[], [], ⟨500, none, none, false⟩⟩) ∧
    (∀ (pageId nid now status : Nat) (body : List Char)
        (prev : Option ScrapeRoute.Snapshot),
      Scraping.responseOk status = false →
      ScrapeRoute.runScrapePost pageId prev nid now (.response status body) =
        ⟨[], [], ⟨500, none, none, false⟩⟩) ∧
    (∀ (pageId nid now status : Nat) (body : List Char)
        (prev : Option ScrapeRoute.Snapshot),
      Scraping.responseOk status = true →
      (ScrapeRoute.runScrapePost pageId prev nid now (.response status body)).response.status
        = 201) := by
  refine ⟨runScrapePost_fail_network, runScrapePost_fail_status, ?_⟩
  intro pageId nid now status body prev hok
  rw [runScrapePost_ok pageId prev nid now status body hok]
  rcases prev with _ | p
  · rw [processScrapeResult_none]
  · rw [processScrapeResult_some]
    exact detectChanges_status _ _ _ _

/-- C5 witness: a 404 fetch persists nothing and answers 500; a 200 fetch
answers 201. -/
theorem C5_fetch_failure_aborts_witness :
    ScrapeRoute.runScrapePost 1 (some exPrevEmpty) 6 1 .networkError =
      ⟨[], [], ⟨500, none, none, false⟩⟩ ∧
    ScrapeRoute.runScrapePost 1 (some exPrevEmpty) 6 1 (.response 404 exBodyText) =
      ⟨[], [], ⟨500, none, none, false⟩⟩ ∧
    (ScrapeRoute.runScrapePost 1 (some exPrevEmpty) 6 1
        (.response 200 exBodyText)).response.status = 201 :=
  ⟨C5_fetch_failure_aborts.1 1 6 1 (some exPrevEmpty),
    C5_fetch_failure_aborts.2.1 1 6 1 404 exBodyText (some exPrevEmpty) rfl,
    C5_fetch_failure_aborts.2.2 1 6 1 200 exBodyText (some exPrevEmpty) rfl⟩

/-- Helper: every change the detector creates references both captures. -/
theorem detect_changes_refs (pageId : Nat) (p snap : ScrapeRoute.Snapshot)
    (newText : List Char) :
    ∀ c ∈ (ScrapeRoute.detectChanges pageId p snap newText).createdChanges,
      c.oldSnapshotId.isSome = true ∧ c.newSnapshotId.isSome = true := by
  intro c hc
  simp only [ScrapeRoute.detectChanges] at hc
  rcases htc : ScrapeRoute.textChangeCond (p.extractedText.getD []) newText <;>
    rcases hpc : ScrapeRoute.priceChangeCond p.extractedPricing snap.extractedPricing <;>
      simp [htc, hpc, ScrapeRoute.mkTextChange, ScrapeRoute.mkPriceChange] at hc <;>
      rcases hc with rfl | rfl <;>
        simp [ScrapeRoute.mkTextChange, ScrapeRoute.mkPriceChange]

/-- C9: a run on a page with no prior capture persists exactly one
snapshot, creates no change, and reports `hasChange = false` with a null
representative change; and every change record the detector ever creates
carries non-null references to both the old and the new capture. -/
theorem C9_first_capture_and_refs :
    (∀ (pageId nid now status : Nat) (body : List Char),
      Scraping.responseOk status = true →
      ((ScrapeRoute.runScrapePost pageId none nid now
          (.response status body)).createdSnapshots.length = 1 ∧
        (ScrapeRoute.runScrapePost pageId none nid now
          (.response status body)).createdChanges = [] ∧
        (ScrapeRoute.runScrapePost pageId none nid now
          (.response status body)).response.hasChange = false ∧
        (ScrapeRoute.runScrapePost pageId none nid now
          (.response status body)).response.change = none)) ∧
    (∀ (pageId : Nat) (prev : Option ScrapeRoute.Snapshot) (nid now : Nat)
        (fetch : Scraping.FetchOutcome) (c : ScrapeRoute.Change),
      c ∈ (ScrapeRoute.runScrapePost pageId prev nid now fetch).createdChanges →
      c.oldSnapshotId.isSome = true ∧ c.newSnapshotId.isSome = true) := by
  constructor
  · intro pageId nid now status body hok
    rw [runScrapePost_ok pageId none nid now status body hok, processScrapeResult_none]
    exact ⟨rfl, rfl, rfl, rfl⟩
  · intro pageId prev nid now fetch c hc
    rcases fetch with _ | ⟨status, body⟩
    · rw [runScrapePost_fail_network] at hc
      simp at hc
    · rcases hst : Scraping.responseOk status with _ | _
      · rw [runScrapePost_fail_status pageId nid now status body prev hst] at hc
        simp at hc
      · rw [runScrapePost_ok pageId prev nid now status body hst] at hc
        rcases prev with _ | p
        · rw [processScrapeResult_none] at hc
          simp at hc
        · rw [processScrapeResult_some] at hc
          exact detect_changes_refs _ _ _ _ c hc

/-- C9 witness: a first capture at a concrete input, and the references
of a concretely created TEXT change. -/
theorem C9_first_capture_and_refs_witness :
    (ScrapeRoute.runScrapePost 1 none 6 1
        (.response 200 exBodyText)).createdSnapshots.length = 1 ∧
    (ScrapeRoute.runScrapePost 1 none 6 1 (.response 200 exBodyText)).createdChanges = [] ∧
    ((ScrapeRoute.mkTextChange 1 5 6 []
        (Scraping.cleanHtmlToText exBodyText)).oldSnapshotId.isSome = true ∧
      (ScrapeRoute.mkTextChange 1 5 6 []
        (Scraping.cleanHtmlToText exBodyText)).newSnapshotId.isSome = true) :=
  ⟨(C9_first_capture_and_refs.1 1 6 1 200 exBodyText rfl).1,
    (C9_first_capture_and_refs.1 1 6 1 200 exBodyText rfl).2.1,
    C9_first_capture_and_refs.2 1 (some exPrevEmpty) 6 1 (.response 200 exBodyText)
      (ScrapeRoute.mkTextChange 1 5 6 [] (Scraping.cleanHtmlToText exBodyText))
      (by decide)⟩

open JsStr

theorem stripPrefixCI_upper :
    ∀ (lit cs tok rest : List Char),
      stripPrefixCI lit cs = some (tok, rest) → upperStr tok = upperStr lit := by
  intro lit
  induction lit with
  | nil =>
    intro cs tok rest h
    simp [stripPrefixCI] at h
    simp [h.1]
  | cons l ls ih =>
    intro cs tok rest h
    cases cs with
    | nil => simp [stripPrefixCI] at h
    | cons c cs' =>
      simp only [stripPrefixCI] at h
      rcases hceq : charEqCI c l with _ | _
      · rw [hceq] at h
        simp at h
      · rw [hceq] at h
        rcases hrec : stripPrefixCI ls cs' with _ | ⟨tok', rest'⟩ <;> rw [hrec] at h
        · simp at h
        · simp at h
          rcases h with ⟨rfl, rfl⟩
          have hceq' : asciiUpper c = asciiUpper l := by
            have := hceq
            simp [charEqCI] at this
            exact this
          simp [upperStr] at ih ⊢
          exact ⟨hceq', ih cs' tok' rest' hrec⟩

theorem matchCurrencyTok_upper (cs tok rest : List Char)
    (h : ScrapeRoute.matchCurrencyTok cs = some (tok, rest)) :
    upperStr tok = ['€'] ∨ upperStr tok = "EUR".data ∨ upperStr tok = "EURO".data ∨
      upperStr tok = ['$'] ∨ upperStr tok = "USD".data := by
  simp only [ScrapeRoute.matchCurrencyTok] at h
  rcases h1 : stripPrefixCI ['€'] cs with _ | ⟨t1, r1⟩
  · rw [h1] at h
    rcases h2 : stripPrefixCI ['e', 'u', 'r'] cs with _ | ⟨t2, r2⟩
    · rw [h2] at h
      rcases h3 : stripPrefixCI ['e', 'u', 'r', 'o'] cs with _ | ⟨t3, r3⟩
      · rw [h3] at h
        rcases h4 : stripPrefixCI ['$'] cs with _ | ⟨t4, r4⟩
        · rw [h4] at h
          exact Or.inr (Or.inr (Or.inr (Or.inr
            (by rw [stripPrefixCI_upper _ _ _ _ h]; decide))))
        · rw [h4] at h
          simp at h
          rcases h with ⟨rfl, rfl⟩
          exact Or.inr (Or.inr (Or.inr (Or.inl
            (by rw [stripPrefixCI_upper _ _ _ _ h4]; decide))))
      · rw [h3] at h
        simp at h
        rcases h with ⟨rfl, rfl⟩
        exact Or.inr (Or.inr (Or.inl (by rw [stripPrefixCI_upper _ _ _ _ h3]; decide)))
    · rw [h2] at h
      simp at h
      rcases h with ⟨rfl, rfl⟩
      exact Or.inr (Or.inl (by rw [stripPrefixCI_upper _ _ _ _ h2]; decide))
  · rw [h1] at h
    simp at h
    rcases h with ⟨rfl, rfl⟩
    exact Or.inl (by rw [stripPrefixCI_upper _ _ _ _ h1]; decide)

theorem matchNumFirstAt_shape (cs : List Char) (m : ScrapeRoute.PriceMatch)
    (h : ScrapeRoute.matchNumFirstAt cs = some m) :
    ∃ a tok, m = .numFirst a tok ∧
      (upperStr tok = ['€'] ∨ upperStr tok = "EUR".data ∨ upperStr tok = "EURO".data ∨
        upperStr tok = ['$'] ∨ upperStr tok = "USD".data) := by
  simp only [ScrapeRoute.matchNumFirstAt] at h
  split at h
  · simp at h
  · split at h
    · rename_i tok rest heq
      simp at h
      exact ⟨_, tok, h.symm, matchCurrencyTok_upper _ tok rest heq⟩
    · simp at h

theorem matchDollarFirstAt_shape (cs : List Char) (m : ScrapeRoute.PriceMatch)
    (h : ScrapeRoute.matchDollarFirstAt cs = some m) : ∃ a, m = .dollarFirst a := by
  simp only [ScrapeRoute.matchDollarFirstAt] at h
  split at h
  · split at h
    · simp at h
    · simp at h
      exact ⟨_, h.symm⟩
  · simp at h

theorem findPriceMatch_numFirst :
    ∀ (l a tok : List Char),
      ScrapeRoute.findPriceMatch l = some (.numFirst a tok) →
      (upperStr tok = ['€'] ∨ upperStr tok = "EUR".data ∨ upperStr tok = "EURO".data ∨
        upperStr tok = ['$'] ∨ upperStr tok = "USD".data) := by
  intro l
  induction l with
  | nil => intro a tok h; simp [ScrapeRoute.findPriceMatch] at h
  | cons c rest ih =>
    intro a tok h
    simp only [ScrapeRoute.findPriceMatch] at h
    rcases hm : ScrapeRoute.matchPriceAt (c :: rest) with _ | m <;> rw [hm] at h
    · exact ih a tok h
    · simp at h
      subst h
      simp only [ScrapeRoute.matchPriceAt] at hm
      rcases hn : ScrapeRoute.matchNumFirstAt (c :: rest) with _ | m' <;> rw [hn] at hm
      · rcases matchDollarFirstAt_shape _ _ hm with ⟨a', ha'⟩
        simp at ha'
      · simp at hm
        subst hm
        rcases matchNumFirstAt_shape _ _ hn with ⟨a'', tok'', heq, hP⟩
        cases heq
        exact hP

theorem jsNumber_finite (s : List Char) (q : ℚ) (h : jsNumber s = some q) :
    isFiniteNumber q = true := by
  simp only [jsNumber] at h
  split at h
  · simp at h
    subst h
    decide
  · split at h
    · simp at h
    · rename_i q' hq'
      split at h
      · simp at h
        subst h
        assumption
      · simp at h

theorem collectItems_mem :
    ∀ (lines : List (List Char)) (acc : List ScrapeRoute.PricingItem)
      (item : ScrapeRoute.PricingItem),
      item ∈ ScrapeRoute.collectItems lines acc →
      item ∈ acc ∨ ∃ l ∈ lines, ScrapeRoute.processLine l = some item := by
  intro lines
  induction lines with
  | nil =>
    intro acc item h
    simp [ScrapeRoute.collectItems] at h
    exact Or.inl h
  | cons l rest ih =>
    intro acc item h
    simp only [ScrapeRoute.collectItems] at h
    split at h
    · exact Or.inl h
    · rcases hp : ScrapeRoute.processLine l with _ | it <;> rw [hp] at h
      · rcases ih acc item h with h' | ⟨l', hl', hpl⟩
        · exact Or.inl h'
        · exact Or.inr ⟨l', List.mem_cons_of_mem _ hl', hpl⟩
      · rcases ih (acc ++ [it]) item h with h' | ⟨l', hl', hpl⟩
        · rcases List.mem_append.1 h' with h'' | h''
          · exact Or.inl h''
          · simp at h''
            subst h''
            exact Or.inr ⟨l, List.mem_cons_self _ _, hp⟩
        · exact Or.inr ⟨l', List.mem_cons_of_mem _ hl', hpl⟩

theorem processLine_props (l : List Char) (item : ScrapeRoute.PricingItem)
    (h : ScrapeRoute.processLine l = some item) :
    item.rawLine = l ∧ item.label = some (l.take 120) ∧
      (∃ q, item.amount = some q ∧ isFiniteNumber q = true) ∧
      (item.currency = some "EUR".data ∨ item.currency = some "USD".data) := by
  simp only [ScrapeRoute.processLine] at h
  rcases hm : ScrapeRoute.findPriceMatch l with _ | m <;> rw [hm] at h
  · simp at h
  · cases m with
    | numFirst a tok =>
      simp only [] at h
      rcases hn : jsNumber (replaceFirstComma a) with _ | q <;> rw [hn] at h
      · simp at h
      · simp at h
        subst h
        refine ⟨rfl, rfl, ⟨q, rfl, jsNumber_finite _ _ hn⟩, ?_⟩
        rcases findPriceMatch_numFirst l a tok hm with hU | hU | hU | hU | hU <;>
          rw [hU] <;> simp
    | dollarFirst a =>
      simp only [] at h
      rcases hn : jsNumber (replaceFirstComma a) with _ | q <;> rw [hn] at h
      · simp at h
      · simp at h
        subst h
        exact ⟨rfl, rfl, ⟨q, rfl, jsNumber_finite _ _ hn⟩, Or.inr rfl⟩

/-- C10: every item of the loose pricing pass has a finite numeric
amount, a currency that is exactly EUR or USD, a raw line that is one of
the non-empty trimmed lines of the input, and a label equal to the first
120 characters of that line. -/
theorem C10_loose_item_invariants (text : Option (List Char)) (item : ScrapeRoute.PricingItem)
    (hmem : item ∈ ScrapeRoute.extractPricingFromText text) :
    (∃ q, item.amount = some q ∧ JsStr.isFiniteNumber q = true) ∧
    (item.currency = some "EUR".data ∨ item.currency = some "USD".data) ∧
    (∃ t, text = some t ∧ item.rawLine ∈ ScrapeRoute.processedLines t) ∧
    item.rawLine ≠ [] ∧
    item.label = some (item.rawLine.take 120) := by
  rcases text with _ | t
  · simp [ScrapeRoute.extractPricingFromText] at hmem
  · simp only [ScrapeRoute.extractPricingFromText] at hmem
    split at hmem
    · simp at hmem
    · rcases collectItems_mem _ _ _ hmem with h' | ⟨l, hl, hpl⟩
      · simp at h'
      · rcases processLine_props l item hpl with ⟨hraw, hlabel, hamount, hcur⟩
        subst hraw
        refine ⟨hamount, hcur, ⟨t, rfl, hl⟩, ?_, hlabel⟩
        have := (List.mem_filter.1 hl).2
        simpa using this

/-- The loose-pass item extracted from the line `84,90 €`. -/
def exLooseItem : ScrapeRoute.PricingItem :=
  ⟨some "84,90 €".data, some (mkRat 849 10), some "EUR".data, "84,90 €".data⟩

/-- C10 witness: the invariants at the item extracted from `84,90 €`. -/
theorem C10_loose_item_invariants_witness :
    (∃ q, exLooseItem.amount = some q ∧ JsStr.isFiniteNumber q = true) ∧
    (exLooseItem.currency = some "EUR".data ∨ exLooseItem.currency = some "USD".data) ∧
    (∃ t, (some "84,90 €".data : Option (List Char)) = some t ∧
      exLooseItem.rawLine ∈ ScrapeRoute.processedLines t) ∧
    exLooseItem.rawLine ≠ [] ∧
    exLooseItem.label = some (exLooseItem.rawLine.take 120) :=
  C10_loose_item_invariants (some "84,90 €".data) exLooseItem (by decide)
